import Mathlib

/-!
Verification development for the decision-making core of the trading-assistant
backend: the precondition guard (`app/backend/agent/validation/guard.py`),
the schema contracts (`validation/contracts.py`, `validation/schemas.py`),
the classification utilities (`agent/planners/utils.py`) and the two strategy
pipelines (`agent/planners/swing_buy.py`, `agent/planners/options_buying.py`).

The Python code is shallowly embedded: Python/JSON runtime values become the
inductive `JValue`; dictionaries become association lists with first-match
lookup (Python dict keys are unique, so the two agree); Python floats are
modelled as exact rationals (`ℚ`); code that can raise an exception returns
`Except PyErr`; the side-effecting clock (`date.today()`) becomes an explicit
string parameter; the remote tool caller (`ToolClient.call`, which by its type
returns a `Dict[str, Any]`) becomes an arbitrary function
`String → JValue → PyDict`.
-/

/- The Batteries rational-arithmetic primitives are `irreducible`, which
blocks evaluation of concrete witnesses by `decide`; restore the default
reducibility locally (proof-irrelevant: it only re-enables unfolding). -/
attribute [local semireducible] Rat.add Rat.mul Rat.inv Rat.sub

/-- Whitespace-trimming of a character list on both sides (Python
`str.strip()`; ASCII whitespace, which agrees with Python on the inputs this
code handles). -/
def charTrim (l : List Char) : List Char :=
  ((l.dropWhile Char.isWhitespace).reverse.dropWhile Char.isWhitespace).reverse

/-- Python `s.strip()`. -/
def strTrim (s : String) : String :=
  String.mk (charTrim s.data)

/-- Python `s.upper()` (ASCII; agrees with Python on the alphanumeric
queries this code targets). -/
def strUpper (s : String) : String :=
  String.mk (s.data.map Char.toUpper)

/-- Python `s.lower()` (ASCII). -/
def strLower (s : String) : String :=
  String.mk (s.data.map Char.toLower)

/-- Python `sep.join(parts)`. -/
def joinSep (sep : String) : List String → String
  | [] => ""
  | [x] => x
  | x :: xs => x ++ sep ++ joinSep sep xs

/-- Lexicographic (code-point) strict comparison of character lists: the
order Python uses to compare strings. -/
def charListLt : List Char → List Char → Bool
  | [], [] => false
  | [], _ :: _ => true
  | _ :: _, [] => false
  | a :: as, b :: bs => if a < b then true else if b < a then false else charListLt as bs

/-- Python `a <= b` on strings (lexicographic by code point). -/
def pyStrLe (a b : String) : Bool :=
  !(charListLt b.data a.data)

/-- A Python/JSON runtime value.  Python `None` is `null`; Python `bool`,
`int`, `float` and `str` map to the corresponding constructors (floats are
modelled as exact rationals); lists become `arr`; dictionaries (whose keys in
all payloads handled by this code are strings) become `obj` association
lists. -/
inductive JValue where
  | null : JValue
  | bool : Bool → JValue
  | int : Int → JValue
  | num : ℚ → JValue
  | str : String → JValue
  | arr : List JValue → JValue
  | obj : List (String × JValue) → JValue

/-- A Python dictionary with string keys: an association list, first match
wins (Python dict keys are unique so this coincides with dict semantics). -/
abbrev PyDict := List (String × JValue)

/-- `d.get(k)`: returns the stored value, or `None` when the key is absent. -/
def pyDictGet (d : PyDict) (k : String) : JValue :=
  (List.lookup k d).getD JValue.null

/-- `d.get(k, dflt)`: the stored value, or `dflt` only when the key is absent
(a stored `None` is returned as-is). -/
def pyDictGetD (d : PyDict) (k : String) (dflt : JValue) : JValue :=
  (List.lookup k d).getD dflt

/-- Python `k in d` membership test on a dictionary. -/
def hasKey (d : PyDict) (k : String) : Bool :=
  (List.lookup k d).isSome

/-- Python truthiness of a value: `None`, `False`, zero, the empty string and
empty containers are falsy, everything else truthy. -/
def jTruthy : JValue → Bool
  | JValue.null => false
  | JValue.bool b => b
  | JValue.int i => i != 0
  | JValue.num q => q != 0
  | JValue.str s => s != ""
  | JValue.arr xs => !xs.isEmpty
  | JValue.obj kvs => !kvs.isEmpty

/-- Python `x is None`. -/
def jIsNull : JValue → Bool
  | JValue.null => true
  | _ => false

/-- Python `a or b` on values: `a` when truthy, else `b`. -/
def pyOrJ (a b : JValue) : JValue :=
  if jTruthy a then a else b

/-- Python `v == s` against a string literal: only a `str` can equal a `str`
(numbers, booleans, `None` and containers never compare equal to a string). -/
def jEqStr (v : JValue) (s : String) : Bool :=
  match v with
  | JValue.str t => t == s
  | _ => false

/-- Python `lst[-n:]` for `n ≥ 0`: the last `n` elements, or the whole list
when `n = 0` (since `lst[-0:] = lst[0:]`) or when `n` exceeds the length. -/
def pyTakeLast (l : List α) (n : Nat) : List α :=
  if n = 0 then l else l.drop (l.length - n)

/-- Value of a list of decimal digit characters. -/
def digitsVal (l : List Char) : Nat :=
  l.foldl (fun a c => a * 10 + (c.toNat - 48)) 0

/-- Parse the exponent part of a float literal (after the `e`): optional sign
followed by at least one digit and nothing else. -/
def parseExp (l : List Char) : Option Int :=
  let (sgn, l1) : Int × List Char :=
    match l with
    | '+' :: r => (1, r)
    | '-' :: r => (-1, r)
    | _ => (1, l)
  if l1 ≠ [] ∧ l1.all Char.isDigit then some (sgn * digitsVal l1) else none

/-- Parse the part of a float literal after the mantissa: empty, or `e`/`E`
followed by an exponent. -/
def parseTail (l : List Char) (mantissa : ℚ) : Option ℚ :=
  match l with
  | [] => some mantissa
  | 'e' :: r =>
    match parseExp r with
    | some e => some (mantissa * (10 : ℚ) ^ e)
    | none => none
  | _ => none

/-- Python `float(s)` on a string: optional surrounding whitespace, optional
sign, decimal digits with an optional fractional part, and an optional
exponent.  (Digit-group underscores and the non-finite literals `inf`/`nan`
are outside this model and treated as parse failures; none of the code under
study produces them.) -/
def parseFloat (s : String) : Option ℚ :=
  let l := (charTrim s.data).map Char.toLower
  let (sgn, l1) : ℚ × List Char :=
    match l with
    | '+' :: r => (1, r)
    | '-' :: r => (-1, r)
    | _ => (1, l)
  let ip := l1.takeWhile Char.isDigit
  let l2 := l1.dropWhile Char.isDigit
  let (fp, l3) : List Char × List Char :=
    match l2 with
    | '.' :: r => (r.takeWhile Char.isDigit, r.dropWhile Char.isDigit)
    | _ => ([], l2)
  if ip = [] ∧ fp = [] then none
  else
    let mantissa : ℚ :=
      (digitsVal ip : ℚ) + (digitsVal fp : ℚ) / (10 : ℚ) ^ fp.length
    match parseTail l3 (sgn * mantissa) with
    | some q => some q
    | none => none

/-- Python `int(s)` on a string: optional whitespace, optional sign, one or
more decimal digits. -/
def parseIntStr (s : String) : Option Int :=
  let l := charTrim s.data
  let (sgn, l1) : Int × List Char :=
    match l with
    | '+' :: r => (1, r)
    | '-' :: r => (-1, r)
    | _ => (1, l)
  if l1 ≠ [] ∧ l1.all Char.isDigit then some (sgn * digitsVal l1) else none

/-- Python `float(v)`: `None` and containers raise (modelled as `none`);
booleans convert to 0/1; numbers convert to themselves; strings are parsed. -/
def pyFloat : JValue → Option ℚ
  | JValue.null => none
  | JValue.bool b => some (if b then 1 else 0)
  | JValue.int i => some (i : ℚ)
  | JValue.num q => some q
  | JValue.str s => parseFloat s
  | JValue.arr _ => none
  | JValue.obj _ => none

/-- Python `int(v)`: floats truncate toward zero, strings must be integer
literals, `None` and containers raise (modelled as `none`). -/
def pyInt : JValue → Option Int
  | JValue.null => none
  | JValue.bool b => some (if b then 1 else 0)
  | JValue.int i => some i
  | JValue.num q => some (Int.tdiv q.num (q.den : Int))
  | JValue.str s => parseIntStr s
  | JValue.arr _ => none
  | JValue.obj _ => none

/-- Rendering of a numeric (float) value.  Python float `repr` is
approximated: integral floats render as `n.0` like Python; non-integral
values use the rational `num/den` notation.  No behaviour studied here
depends on the exact digits of a rendered number. -/
def pyNumRepr (q : ℚ) : String :=
  if q.den = 1 then toString q.num ++ ".0" else toString q.num ++ "/" ++ toString q.den

mutual

/-- Python `repr(v)`: strings are quoted, containers render their elements
with `repr`. -/
def pyRepr : JValue → String
  | JValue.null => "None"
  | JValue.bool b => if b then "True" else "False"
  | JValue.int i => toString i
  | JValue.num q => pyNumRepr q
  | JValue.str s => "\x27" ++ s ++ "\x27"
  | JValue.arr xs => "[" ++ pyReprList xs ++ "]"
  | JValue.obj kvs => "\x7b" ++ pyReprObj kvs ++ "\x7d"

/-- Comma-separated `repr` of list elements. -/
def pyReprList : List JValue → String
  | [] => ""
  | [x] => pyRepr x
  | x :: xs => pyRepr x ++ ", " ++ pyReprList xs

/-- Comma-separated `repr` of dict entries. -/
def pyReprObj : List (String × JValue) → String
  | [] => ""
  | [kv] => "\x27" ++ kv.1 ++ "\x27: " ++ pyRepr kv.2
  | kv :: kvs => "\x27" ++ kv.1 ++ "\x27: " ++ pyRepr kv.2 ++ ", " ++ pyReprObj kvs

end

/-- Python `str(v)`: the string itself for strings, `repr` otherwise. -/
def pyStr (v : JValue) : String :=
  match v with
  | JValue.str s => s
  | _ => pyRepr v

/-! ## Classification utilities (`app/backend/agent/planners/utils.py`)

`date.today()` is a hidden input of `today_yyyy_mm_dd` / `days_ago_yyyy_mm_dd`;
the pipelines below therefore take the already-formatted date strings as
explicit parameters. -/

/-- Substring test on character lists: some suffix of `l` starts with `sub`. -/
def listContainsSub (l sub : List Char) : Bool :=
  (List.range (l.length + 1)).any fun i => sub.isPrefixOf (l.drop i)

/-- Python `sub in s` on strings. -/
def strContains (s sub : String) : Bool :=
  listContainsSub s.data sub.data

/-- Split a character list into maximal runs of characters in `A`-`Z`
(the tokenizer loop of `extract_symbol_guess`); `cur` is the reversed
run accumulated so far. -/
def splitAZ : List Char → List Char → List String
  | [], cur => if cur.isEmpty then [] else [String.mk cur.reverse]
  | c :: rest, cur =>
    if 'A' ≤ c ∧ c ≤ 'Z' then splitAZ rest (c :: cur)
    else if cur.isEmpty then splitAZ rest [] else String.mk cur.reverse :: splitAZ rest []


/-- Stop words skipped by `extract_symbol_guess`. -/
def symbolStopWords : List String :=
  ["CAN", "I", "BUY", "TODAY", "PLEASE", "PRICE", "QUOTE", "ANALYZE", "ANALYSIS",
   "SWING", "INTRADAY", "SCALP", "OPTION", "OPTIONS", "CE", "PE", "CALL", "PUT",
   "GOOD", "FOR", "IS", "THE", "A", "OF", "TO"]

/-- `extract_symbol_guess`: minimal extraction of a likely symbol from a user
query (fast path for the common indices, then the first alphabetic token of
length ≥ 3 that is not a stop word).  Python `str.upper`/`str.strip` are
Unicode-aware; the model uses the ASCII versions, which agree on the
alphanumeric queries this code targets. -/
def extract_symbol_guess (user_query : String) : Option String :=
  if user_query = "" then none
  else
    let q := strTrim user_query
    if q = "" then none
    else
      let upper := strUpper q
      if strContains upper "BANKNIFTY" || strContains upper "BANK NIFTY" then some "BANKNIFTY"
      else if strContains upper "NIFTY" then some "NIFTY"
      else if strContains upper "SENSEX" then some "SENSEX"
      else
        let tokens := splitAZ upper.data []
        tokens.find? fun tok =>
          tok != "" && !(symbolStopWords.contains tok) && 3 ≤ tok.length

/-- `is_index_symbol`. -/
def is_index_symbol (symbol : String) : Bool :=
  let u := strUpper symbol
  ["NIFTY", "BANKNIFTY", "SENSEX"].contains u || strContains u "NIFTY" || strContains u "SENSEX"

/-- `sma(values, period)`: `None` if `period ≤ 0` (here: `= 0`, the parameter
being a natural number) or there are fewer than `period` values, else the
mean of the last `period` values. -/
def sma (values : List ℚ) (period : Nat) : Option ℚ :=
  if period = 0 ∨ values.length < period then none
  else some ((pyTakeLast values period).sum / (period : ℚ))

/-- One candle's contribution to the VWAP sums: Python wraps the four field
conversions in one `try`, so a candle whose `high`/`low`/`close`/`volume` do
not all convert (or which is not a dict) is skipped whole.  `volume` uses
`c.get("volume") or 0.0`. -/
def vwapEntry (c : JValue) : Option (ℚ × ℚ × ℚ × ℚ) :=
  match c with
  | JValue.obj d =>
    match pyFloat (pyDictGet d "high"), pyFloat (pyDictGet d "low"),
          pyFloat (pyDictGet d "close"),
          pyFloat (pyOrJ (pyDictGet d "volume") (JValue.num 0)) with
    | some h, some l, some cl, some vol => some (h, l, cl, vol)
    | _, _, _, _ => none
  | _ => none

/-- `vwap(candles)`: volume-weighted typical price `(high+low+close)/3`;
`None` when the summed volume is not positive. -/
def vwap (candles : List JValue) : Option ℚ :=
  let entries := candles.filterMap vwapEntry
  let num := (entries.map fun e => (e.1 + e.2.1 + e.2.2.1) / 3 * e.2.2.2).sum
  let den := (entries.map fun e => e.2.2.2).sum
  if den ≤ 0 then none else some (num / den)

/-- The `low` values that `recent_swing_low` collects from the last
`lookback` candles (non-dict candles and unconvertible lows are skipped). -/
def candleLows (candles : List JValue) (lookback : Nat) : List ℚ :=
  (pyTakeLast candles lookback).filterMap fun c =>
    match c with
    | JValue.obj d => pyFloat (pyDictGet d "low")
    | _ => none

/-- The `high` values that `recent_swing_high` collects. -/
def candleHighs (candles : List JValue) (lookback : Nat) : List ℚ :=
  (pyTakeLast candles lookback).filterMap fun c =>
    match c with
    | JValue.obj d => pyFloat (pyDictGet d "high")
    | _ => none

/-- `recent_swing_low(candles, lookback)`: minimum collected low, if any. -/
def recent_swing_low (candles : List JValue) (lookback : Nat) : Option ℚ :=
  match candleLows candles lookback with
  | [] => none
  | x :: xs => some (xs.foldl min x)

/-- `recent_swing_high(candles, lookback)`: maximum collected high, if any. -/
def recent_swing_high (candles : List JValue) (lookback : Nat) : Option ℚ :=
  match candleHighs candles lookback with
  | [] => none
  | x :: xs => some (xs.foldl max x)

/-- The closing prices a planner extracts from a candle list: `float(c.get("close"))`
under a `try` that skips candles that are not dicts or whose close does not
convert (shared shape of `_extract_closes` and the loop in `classify_htf_bias`). -/
def extractCloses (candles : List JValue) : List ℚ :=
  candles.filterMap fun c =>
    match c with
    | JValue.obj d => pyFloat (pyDictGet d "close")
    | _ => none

/-- `classify_htf_bias(daily_candles)`: `(htf_bias, allowed_direction)`. -/
def classify_htf_bias (daily_candles : List JValue) : String × String :=
  let closes := extractCloses daily_candles
  if closes.length < 60 then ("RANGE", "NO_TRADE")
  else
    match sma closes 20, sma closes 50 with
    | some s20, some s50 =>
      let last := closes.getLastD 0
      if s20 > s50 ∧ last > s20 then ("BULLISH", "CE_ONLY")
      else if s20 < s50 ∧ last < s20 then ("BEARISH", "PE_ONLY")
      else ("RANGE", "NO_TRADE")
    | _, _ => ("RANGE", "NO_TRADE")

/-- Last close of an intraday series: `float(intraday_candles[-1].get("close"))`,
`none` when the list is empty, the last candle is not a dict, or the value
does not convert (all caught by the surrounding `try`). -/
def extractLastClose (candles : List JValue) : Option ℚ :=
  match candles.getLast? with
  | some (JValue.obj d) => pyFloat (pyDictGet d "close")
  | _ => none

/-- The `bullish` flag of `classify_ltf_structure` (source line 164): VWAP
defined, last close above it, and the latest 20-candle swing high at least
the swing high computed excluding the most recent candle. -/
def ltfBullish (vw : Option ℚ) (last_close : ℚ) (swing_h prev_swing_h : Option ℚ) : Bool :=
  match vw, swing_h, prev_swing_h with
  | some v, some sh, some psh => last_close > v ∧ sh ≥ psh
  | _, _, _ => false

/-- The `bearish` flag of `classify_ltf_structure` (source line 165). -/
def ltfBearish (vw : Option ℚ) (last_close : ℚ) : Bool :=
  match vw with
  | some v => last_close < v
  | none => false

/-- `classify_ltf_structure(intraday_candles)`: `(ltf_structure, entry_permission)`. -/
def classify_ltf_structure (intraday_candles : List JValue) : String × Bool :=
  if intraday_candles.length < 30 then ("NEUTRAL", false)
  else
    let vw := vwap intraday_candles
    match extractLastClose intraday_candles with
    | none => ("NEUTRAL", false)
    | some last_close =>
      let swing_h := recent_swing_high intraday_candles 20
      let prev_swing_h :=
        if intraday_candles.length > 1 then recent_swing_high intraday_candles.dropLast 20
        else none
      let bullish := ltfBullish vw last_close swing_h prev_swing_h
      let bearish := ltfBearish vw last_close
      if bullish && !bearish then ("BULLISH", true)
      else if bearish && !bullish then ("BEARISH", true)
      else ("NEUTRAL", false)

/-- `risk_budget_from_account(account_context)`: `(risk_budget_amount, error_message)`.
`capital` and `max_risk_per_trade` must be present (and not `None`), convert
to floats, and be strictly positive; the budget is `capital * (pct / 100)`. -/
def risk_budget_from_account (account_context : PyDict) : Option ℚ × Option String :=
  let capital := pyDictGet account_context "capital"
  let max_risk_pct := pyDictGet account_context "max_risk_per_trade"
  if jIsNull capital then (none, some "I need account_context.capital to size risk.")
  else if jIsNull max_risk_pct then
    (none, some "I need account_context.max_risk_per_trade (as a % of capital) to size risk.")
  else
    match pyFloat capital, pyFloat max_risk_pct with
    | some cap, some pct =>
      if cap ≤ 0 ∨ pct ≤ 0 then
        (none, some "account_context.capital and max_risk_per_trade must be > 0.")
      else (some (cap * (pct / 100)), none)
    | _, _ => (none, some "account_context.capital and max_risk_per_trade must be numbers.")

/-! ## Precondition guard (`app/backend/agent/validation/guard.py`) and
schema contracts (`validation/schemas.py`, `validation/contracts.py`)

A contract is a JSON-Schema dict.  The shapes used in this repository are an
object schema (`type`/`properties`/`required`) and the composition
`allOf [base, extra]` of a base contract with one additional constraint, so
the contract language is embedded as exactly those two forms. -/

/-- JSON-Schema primitive type names used by the contracts. -/
inductive JTypeName where
  | string | integer | number | boolean | object | array | nullT

/-- Does a value match a JSON-Schema type name?  (`integer` also accepts an
integral float, per JSON Schema; Python `bool` is not accepted for numeric
types, matching the `jsonschema` library's type checker.) -/
def typeMatch : JTypeName → JValue → Bool
  | JTypeName.string, JValue.str _ => true
  | JTypeName.integer, JValue.int _ => true
  | JTypeName.integer, JValue.num q => q.den == 1
  | JTypeName.number, JValue.int _ => true
  | JTypeName.number, JValue.num _ => true
  | JTypeName.boolean, JValue.bool _ => true
  | JTypeName.object, JValue.obj _ => true
  | JTypeName.array, JValue.arr _ => true
  | JTypeName.nullT, JValue.null => true
  | _, _ => false

/-- The constraints a property schema declares in this repository's
contracts: a `type` (one name or a list of alternatives; `[]` means no type
constraint), an optional `enum` of string alternatives, and an optional
`pattern` (embedded as a string predicate). -/
structure FieldSchema where
  types : List JTypeName
  enumVals : Option (List String)
  pattern : Option (String → Bool)

/-- A contract: either a plain object schema (its `properties` and `required`
keys), or the composition `allOf [base, extra]` used by
`OptionChainWithExpirySchema` and `resolve_historical_schema`. -/
inductive Schema where
  | objS (props : List (String × FieldSchema)) (required : List String)
  | allOf2 (base extra : Schema)

/-- `schema.get("required", [])`: the top-level `required` list.  A composed
`allOf` dict has no top-level `required` key, so it yields `[]`. -/
def schemaRequired : Schema → List String
  | Schema.objS _ required => required
  | Schema.allOf2 _ _ => []

/-- `detect_missing_fields(schema, payload)`: the required properties absent
from the payload, in `required`-list order. -/
def detect_missing_fields (schema : Schema) (payload : PyDict) : List String :=
  (schemaRequired schema).filter fun field => !hasKey payload field

/-- Does a present value satisfy one property schema's declared constraints
(type, enum membership, pattern)?  A pattern applies only to strings, per
JSON Schema. -/
def fieldOk (fs : FieldSchema) (v : JValue) : Bool :=
  (fs.types.isEmpty || fs.types.any (typeMatch · v)) &&
  (match fs.enumVals with
   | none => true
   | some es => match v with
     | JValue.str s => es.contains s
     | _ => false) &&
  (match fs.pattern, v with
   | some p, JValue.str s => p s
   | _, _ => true)

/-- Modelled from the spec: the full-validation capability (the third-party
`jsonschema.Draft7Validator`, which is not part of this repository) is
specified at its boundary as checking "type, enum membership, pattern match"
of the payload's fields against their declared property schemas (spec §4.1);
this function produces one error string per present field that violates its
declared constraint, walking `allOf` branches in order. -/
def validationErrors : Schema → PyDict → List String
  | Schema.objS props _, payload =>
    (props.map fun kf =>
      match List.lookup kf.1 payload with
      | some v => if fieldOk kf.2 v then [] else [kf.1 ++ ": invalid"]
      | none => []).flatten
  | Schema.allOf2 base extra, payload =>
    validationErrors base payload ++ validationErrors extra payload

/-- The property-level conformance relation the claim quantifies over: every
field of the payload that the contract declares satisfies its declared
type/enum/pattern constraint (in every `allOf` branch). -/
def PayloadConforms : Schema → PyDict → Prop
  | Schema.objS props _, payload =>
    ∀ k fs, (k, fs) ∈ props → ∀ v, List.lookup k payload = some v → fieldOk fs v = true
  | Schema.allOf2 base extra, payload =>
    PayloadConforms base payload ∧ PayloadConforms extra payload

/-- `_jsonschema_validate(schema, payload)`, parameterised by whether the
full-validation capability is available (`full = false` is the fallback when
the `jsonschema` import fails: a minimal required-field check). -/
def jsonschema_validate (full : Bool) (schema : Schema) (payload : PyDict) :
    Bool × List String :=
  if full then
    let errors := validationErrors schema payload
    (errors.isEmpty, errors)
  else
    let missing := detect_missing_fields schema payload
    if !missing.isEmpty then
      (false, ["Missing required field(s): " ++ joinSep ", " missing])
    else (true, [])

/-- `guard_tool_call(intent, schema, payload)` (parameterised like
`_jsonschema_validate`): missing required fields short-circuit to `ASK_USER`;
otherwise validation failures give `ASK_USER_INVALID`; otherwise `PROCEED`. -/
def guard_tool_call (full : Bool) (intent : String) (schema : Schema)
    (payload : PyDict) : PyDict :=
  let missing := detect_missing_fields schema payload
  if !missing.isEmpty then
    [("action", JValue.str "ASK_USER"),
     ("intent", JValue.str intent),
     ("missing_fields", JValue.arr (missing.map JValue.str)),
     ("message", JValue.str ("I need " ++ joinSep ", " missing ++ " to proceed."))]
  else
    let v := jsonschema_validate full schema payload
    if !v.1 then
      [("action", JValue.str "ASK_USER_INVALID"),
       ("intent", JValue.str intent),
       ("invalid_fields", JValue.arr ((v.2.take 10).map JValue.str)),
       ("message", JValue.str "Some parameters are invalid. Please correct them and try again.")]
    else
      [("action", JValue.str "PROCEED"), ("intent", JValue.str intent)]

/-- `DATE_YYYY_MM_DD_PATTERN`: the regex `^\d{4}-\d{2}-\d{2}$` as a string
predicate (ASCII digits; the `re` module's Unicode digits and its
trailing-newline tolerance for `$` are outside the model). -/
def datePatternOk (s : String) : Bool :=
  match s.data with
  | [a, b, c, d, '-', e, f, '-', g, h] => [a, b, c, d, e, f, g, h].all Char.isDigit
  | _ => false

/-- `EXCHANGE_SEGMENT_ENUM`. -/
def EXCHANGE_SEGMENT_ENUM : List String :=
  ["NSE_EQ", "BSE_EQ", "IDX_I", "NSE_FO", "BSE_FO", "MCX_COM", "NCDEX_COM",
   "NSE_FNO", "BSE_FNO", "MCX_COMM"]

/-- `INSTRUMENT_TYPE_ENUM`. -/
def INSTRUMENT_TYPE_ENUM : List String :=
  ["EQUITY", "INDEX", "FUTURES", "OPTIONS", "FUT", "OPT"]

/-- `INTRADAY_INTERVAL_ENUM`. -/
def INTRADAY_INTERVAL_ENUM : List String :=
  ["1", "5", "15", "25", "60"]

/-- `IntradayOHLCVSchema` (the `additionalProperties: True` key constrains
nothing and is not represented). -/
def IntradayOHLCVSchema : Schema :=
  Schema.objS
    [("security_id", ⟨[JTypeName.string, JTypeName.integer], none, none⟩),
     ("exchange_segment", ⟨[JTypeName.string], some EXCHANGE_SEGMENT_ENUM, none⟩),
     ("instrument_type", ⟨[JTypeName.string], some INSTRUMENT_TYPE_ENUM, none⟩),
     ("interval", ⟨[JTypeName.string], some INTRADAY_INTERVAL_ENUM, none⟩),
     ("from_date", ⟨[JTypeName.string], none, some datePatternOk⟩),
     ("to_date", ⟨[JTypeName.string], none, some datePatternOk⟩)]
    ["security_id", "exchange_segment", "instrument_type", "interval",
     "from_date", "to_date"]

/-- `DailyOHLCVSchema`. -/
def DailyOHLCVSchema : Schema :=
  Schema.objS
    [("security_id", ⟨[JTypeName.string, JTypeName.integer], none, none⟩),
     ("exchange_segment", ⟨[JTypeName.string], some EXCHANGE_SEGMENT_ENUM, none⟩),
     ("instrument_type", ⟨[JTypeName.string], some INSTRUMENT_TYPE_ENUM, none⟩),
     ("from_date", ⟨[JTypeName.string], none, some datePatternOk⟩),
     ("to_date", ⟨[JTypeName.string], none, some datePatternOk⟩)]
    ["security_id", "exchange_segment", "instrument_type", "from_date", "to_date"]

/-- `resolve_historical_schema(payload)` (`validation/contracts.py`): the
legacy `get_historical_data` tool resolves to the intraday schema when
`interval` is absent (forcing the guard to ask for it), to the daily schema
composed with an `interval: "daily"` requirement when `interval` is `daily`,
and to the intraday schema otherwise. -/
def resolve_historical_schema (payload : PyDict) : Schema :=
  let interval := pyDictGet payload "interval"
  if jIsNull interval then IntradayOHLCVSchema
  else if strLower (pyStr interval) == "daily" then
    Schema.allOf2 DailyOHLCVSchema
      (Schema.objS
        [("interval", ⟨[JTypeName.string], some ["daily"], none⟩)]
        ["interval"])
  else IntradayOHLCVSchema

/-! ## Planner data model (`app/backend/agent/planners/models.py`) -/

/-- `PlannerState`: the per-run accumulator (eight open key/value mappings). -/
structure PlannerState where
  intent : PyDict := []
  instrument : PyDict := []
  htf : PyDict := []
  ltf : PyDict := []
  option_chain : PyDict := []
  selected_option : PyDict := []
  risk : PyDict := []
  decision : PyDict := []

/-- `PlannerResult`: the terminal output of a pipeline run.  `message` and
`error` hold arbitrary runtime values (the dataclass annotations `str` /
`Optional[str]` are not enforced at runtime, and the pipelines do pass
tool-supplied values through). -/
structure PlannerResult where
  action : String
  message : JValue
  state : PlannerState := {}
  missing_fields : List String := []
  error : JValue := JValue.null
  decision : Option PyDict := none

/-- The exceptions the pipelines can raise (none are caught inside them):
`AttributeError` from `.get` on a non-dict, `ValueError` from `int()` on a
non-numeric string, `TypeError` from an unhashable dict key. -/
inductive PyErr where
  | attributeError | valueError | typeError

/-- The remote-call capability: `ToolClient.call(tool_name, tool_args)`
returns a `Dict[str, Any]` (its declared type in `tool_client.py`); its
behaviour is otherwise arbitrary. -/
abbrev ToolClient := String → JValue → PyDict

/-- `inst_res.get("instruments") or inst_res.get("data", {}).get("instruments")`
(shared by both planners): lazily evaluates the right operand, which raises
`AttributeError` when a stored `data` value is not a dict. -/
def instrumentsOf (res : PyDict) : Except PyErr JValue :=
  let left := pyDictGet res "instruments"
  if jTruthy left then Except.ok left
  else
    match pyDictGetD res "data" (JValue.obj []) with
    | JValue.obj d => Except.ok (pyDictGet d "instruments")
    | _ => Except.error PyErr.attributeError

/-- Python `f"{x:.2f}"`: fixed two-decimal rendering.  Python rounds floats
half-to-even; the model rounds half-up — the difference is a display detail
no studied behaviour depends on. -/
def fmt2 (x : ℚ) : String :=
  let n : Int := round (x * 100)
  let sign := if n < 0 then "-" else ""
  let m := n.natAbs
  sign ++ toString (m / 100) ++ "." ++ (if m % 100 < 10 then "0" else "") ++ toString (m % 100)

/-- Python `round(x, 2)` (same half-up approximation as `fmt2`). -/
def roundTo2 (x : ℚ) : ℚ :=
  ((round (x * 100) : ℤ) : ℚ) / 100

/-! ## Swing-buy pipeline (`app/backend/agent/planners/swing_buy.py`) -/

/-- The high/low pairs the sizing stage collects from the last 20 daily
candles (source lines 129-136): one `try` per candle, and the `high` append
happens before the `low` conversion, so a candle with a convertible high but
unconvertible low contributes to `highs` only. -/
def swingHighsLows (candles : List JValue) : List ℚ × List ℚ :=
  candles.foldl
    (fun acc c =>
      match c with
      | JValue.obj d =>
        match pyFloat (pyDictGet d "high") with
        | none => acc
        | some h =>
          match pyFloat (pyDictGet d "low") with
          | none => (acc.1 ++ [h], acc.2)
          | some l => (acc.1 ++ [h], acc.2 ++ [l])
      | _ => acc)
    ([], [])

/-- Stage S6 of the swing pipeline (source lines 124-126): compute the risk
budget; when `risk_budget_from_account` reports an error the stage halts with
`ASK_USER` listing both account-context field names.  (The Python guard is
`if risk_err:`; every error message produced is a non-empty string, so
presence and truthiness coincide.)  The right component carries the
`risk_budget` value (`None` exactly when an error was reported). -/
def swingRiskStage (account_context : PyDict) (st : PlannerState) :
    Sum PlannerResult (Option ℚ) :=
  match risk_budget_from_account account_context with
  | (_, some risk_err) =>
    Sum.inl ⟨"ASK_USER", JValue.str risk_err, st,
             ["account_context.capital", "account_context.max_risk_per_trade"],
             JValue.null, none⟩
  | (rb, none) => Sum.inr rb

/-- Levels, reward:risk and sizing: `SwingBuyPlanner.run` source lines
128-184, entered once the risk stage has succeeded (`risk_budget` is the
value that stage produced, `last_close` the last closing price from S4). -/
def swingLevels (symbol : String) (account_context : PyDict) (risk_budget : Option ℚ)
    (daily_candles : List JValue) (last_close : ℚ) (st4 : PlannerState) :
    Except PyErr PlannerResult :=
  let hl := swingHighsLows (pyTakeLast daily_candles 20)
  match hl.1, hl.2 with
  | _ :: _, l0 :: lrest =>
    let entry := last_close
    let stop := lrest.foldl min l0
    if stop ≥ entry then
      Except.ok ⟨"NO_TRADE",
        JValue.str "Derived stop-loss is not below entry; cannot form a valid swing plan.",
        st4, [], JValue.null, none⟩
    else
    let risk_per_share := entry - stop
    let target := entry + 2 * risk_per_share
    let rr := if risk_per_share > 0 then (target - entry) / risk_per_share else 0
    if rr < 2 then
      Except.ok ⟨"NO_TRADE",
        JValue.str "RR < 2.0; swing buy is blocked by planner rules.",
        st4, [], JValue.null, none⟩
    else
    if risk_per_share > 0 then
      match risk_budget with
      | none => Except.error PyErr.typeError
      | some rb =>
      let qty : Int := ⌊rb / risk_per_share⌋
      if qty ≤ 0 then
        Except.ok ⟨"NO_TRADE",
          JValue.str "Risk budget is too small for even 1 share given the derived stop-loss.",
          st4, [], JValue.null, none⟩
      else
      let position_value := (qty : ℚ) * entry
      let pct : Option ℚ :=
        match pyFloat (pyDictGet account_context "capital") with
        | some capital => if capital > 0 then some (position_value / capital * 100) else none
        | none => none
      let st5 : PlannerState :=
        { st4 with risk :=
            [("quantity", JValue.int qty), ("risk_budget", JValue.num rb),
             ("risk_per_share", JValue.num risk_per_share), ("rr_ratio", JValue.num rr)] }
      let decision : PyDict :=
        [("trade_type", JValue.str "SWING_BUY"),
         ("symbol", JValue.str symbol),
         ("entry_zone", JValue.str (fmt2 entry ++ " (market) ± 0.5%")),
         ("stop_loss", JValue.num (roundTo2 stop)),
         ("target", JValue.num (roundTo2 target)),
         ("holding_period", JValue.str "2–4 weeks"),
         ("position_size", JValue.str
           (match pct with
            | some p => fmt2 p ++ "% capital"
            | none => "N/A")),
         ("quantity", JValue.int qty),
         ("confidence", JValue.num (7 / 10)),
         ("trade_permission", JValue.str "YES")]
      let st6 : PlannerState := { st5 with decision := decision }
      Except.ok ⟨"DECISION", JValue.str "Swing buy plan generated.", st6, [],
        JValue.null, some decision⟩
    else
      Except.ok ⟨"NO_TRADE",
        JValue.str "Risk budget is too small for even 1 share given the derived stop-loss.",
        st4, [], JValue.null, none⟩
  | _, _ =>
    Except.ok ⟨"NO_TRADE",
      JValue.str "Could not derive key levels from daily OHLCV.",
      st4, [], JValue.null, none⟩

/-- Stages S3(b)-S7 of `SwingBuyPlanner.run` (source lines 84-184): trend
filter over the fetched daily candles, setup/volume confirmation, risk
sizing, then `swingLevels`. -/
def swingAfterDaily (symbol : String) (account_context : PyDict)
    (daily_candles : List JValue) (st2 : PlannerState) : Except PyErr PlannerResult :=
  let closes := extractCloses daily_candles
  if closes.length < 60 then
    Except.ok ⟨"NO_TRADE",
      JValue.str "Not enough daily OHLCV data to validate a swing trend safely.",
      st2, [], JValue.null, none⟩
  else
  match sma closes 20, sma closes 50 with
  | some s20, some s50 =>
    let last := closes.getLastD 0
    let uptrend := decide (s20 > s50 ∧ last > s20)
    let st3 : PlannerState :=
      { st2 with htf :=
          [("trend", JValue.str (if uptrend then "UPTREND" else "NOT_UPTREND")),
           ("swing_allowed", JValue.bool uptrend)] }
    if !uptrend then
      Except.ok ⟨"NO_TRADE",
        JValue.str "HTF trend filter failed (not in a clear uptrend). Swing buy is blocked.",
        st3, [], JValue.null, none⟩
    else
    let last_close := last
    let pullback_ok := decide (last_close ≤ s20 * (103 / 100))
    let recent_vols := (pyTakeLast daily_candles 20).filterMap fun c =>
      match c with
      | JValue.obj d => pyFloat (pyOrJ (pyDictGet d "volume") (JValue.num 0))
      | _ => none
    let volume_ok := decide (recent_vols.sum > 0)
    let st4 : PlannerState :=
      { st3 with ltf :=
          [("setup_type", JValue.str (if pullback_ok then "PULLBACK_BUY" else "BREAKOUT_BUY")),
           ("volume_confirmation", JValue.bool volume_ok)] }
    if !volume_ok then
      Except.ok ⟨"NO_TRADE",
        JValue.str "Volume confirmation failed. Swing buy is blocked.",
        st4, [], JValue.null, none⟩
    else
    match swingRiskStage account_context st4 with
    | Sum.inl halt => Except.ok halt
    | Sum.inr risk_budget =>
      swingLevels symbol account_context risk_budget daily_candles last_close st4
  | _, _ =>
    Except.ok ⟨"NO_TRADE",
      JValue.str "Could not compute trend filters (insufficient data).",
      st2, [], JValue.null, none⟩

/-- `SwingBuyPlanner.run(user_query, account_context, tools)` (stages S1-S3a;
the rest lives in `swingAfterDaily`/`swingLevels`).  `today` and `daysAgo180`
stand for `today_yyyy_mm_dd()` and `days_ago_yyyy_mm_dd(180)` (the hidden
clock made explicit). -/
def swingRun (today daysAgo180 : String) (user_query : String)
    (account_context : PyDict) (tools : ToolClient) : Except PyErr PlannerResult :=
  match extract_symbol_guess user_query with
  | none =>
    Except.ok ⟨"ASK_USER",
      JValue.str "Which stock symbol should I analyze for swing buying (e.g., RELIANCE, TCS, INFY)?",
      {}, ["symbol"], JValue.null, none⟩
  | some symbol =>
  let st1 : PlannerState :=
    { intent := [("symbol", JValue.str symbol), ("trade_type", JValue.str "SWING_BUY")] }
  let inst_res := tools "find_instrument"
    (JValue.obj [("query", JValue.str symbol), ("instrument_type", JValue.str "EQUITY"),
                 ("limit", JValue.int 1)])
  if !jTruthy (pyDictGet inst_res "success") then
    Except.ok ⟨"NO_TRADE",
      JValue.str ("Could not resolve instrument for \x27" ++ symbol ++ "\x27: "
        ++ pyStr (pyDictGet inst_res "error")),
      st1, [], JValue.null, none⟩
  else
  match instrumentsOf inst_res with
  | Except.error e => Except.error e
  | Except.ok instruments =>
  match instruments with
  | JValue.arr (inst :: _) =>
    (match inst with
     | JValue.obj instD =>
       let sid := pyStr (pyDictGet instD "security_id")
       let ex := pyDictGet instD "exchange_segment"
       let st2 : PlannerState :=
         { st1 with instrument :=
             [("security_id", JValue.str sid), ("exchange_segment", ex),
              ("instrument_type", JValue.str "EQUITY")] }
       if sid == "" || !jTruthy ex then
         Except.ok ⟨"NO_TRADE",
           JValue.str "Instrument resolution returned incomplete data (missing security_id/exchange_segment).",
           st2, [], JValue.null, none⟩
       else
       let daily := tools "get_daily_ohlcv"
         (JValue.obj [("security_id", JValue.str sid), ("exchange_segment", ex),
                      ("instrument_type", JValue.str "EQUITY"),
                      ("from_date", JValue.str daysAgo180), ("to_date", JValue.str today)])
       if !jTruthy (pyDictGet daily "success") then
         if jEqStr (pyDictGet daily "action") "ASK_USER"
             || jEqStr (pyDictGet daily "action") "ASK_USER_INVALID" then
           Except.ok ⟨"ASK_USER",
             pyDictGetD daily "error" (JValue.str "Missing information to fetch daily OHLCV."),
             st2, [], JValue.null, none⟩
         else
           Except.ok ⟨"ERROR", JValue.str "Failed to fetch daily OHLCV.", st2, [],
             pyDictGet daily "error", none⟩
       else
       let daily_candles :=
         match pyDictGet daily "data" with
         | JValue.arr xs => xs
         | _ => []
       swingAfterDaily symbol account_context daily_candles st2
     | _ => Except.error PyErr.attributeError)
  | _ =>
    Except.ok ⟨"NO_TRADE",
      JValue.str ("Could not resolve instrument for \x27" ++ symbol ++ "\x27."),
      st1, [], JValue.null, none⟩

/-! ## Options-buying pipeline (`app/backend/agent/planners/options_buying.py`) -/

/-- The flat list of raw expiry entries `_pick_nearest_expiry` normalizes out
of the heterogeneous payload shapes (a bare list; `{"data": [...]}`; or
`{"data": {"data"|"expiries"|"expiry"|"expiry_list": [...]}}`, the inner
alternatives chained with Python `or`). -/
def extractExpiriesRaw (expiry_payload : JValue) : List JValue :=
  match expiry_payload with
  | JValue.arr xs => xs
  | JValue.obj d =>
    if hasKey d "data" then
      match pyDictGet d "data" with
      | JValue.arr xs => xs
      | JValue.obj inner =>
        (match pyOrJ (pyDictGet inner "data")
                 (pyOrJ (pyDictGet inner "expiries")
                   (pyOrJ (pyDictGet inner "expiry") (pyDictGet inner "expiry_list"))) with
         | JValue.arr xs => xs
         | _ => [])
      | _ => []
    else []
  | _ => []

/-- The normalized expiry strings: each raw entry through `str(x)`, keeping
those of length at least 8 (after `str()` every entry is a string, so the
`isinstance` half of the filter is vacuous). -/
def normalizedExpiries (expiry_payload : JValue) : List String :=
  ((extractExpiriesRaw expiry_payload).map pyStr).filter fun e => 8 ≤ e.length

/-- `_pick_nearest_expiry(expiry_payload)`: sort the normalized expiries
(Python `sorted`, lexicographic — valid for ISO dates), return the first one
`≥ today`, else the last (latest) one; `None` when nothing was normalized.
`today` stands for `date.today().strftime("%Y-%m-%d")`. -/
def pick_nearest_expiry (today : String) (expiry_payload : JValue) : Option String :=
  let expiries := normalizedExpiries expiry_payload
  if expiries.isEmpty then none
  else
    let expiries_sorted := List.insertionSort (fun a b => pyStrLe a b = true) expiries
    match expiries_sorted.find? (fun e => pyStrLe today e) with
    | some e => some e
    | none => expiries_sorted.getLast?

/-- `_extract_underlying_ltp_from_quote(result)`: first element of the
normalized `quotes` list, its `ltp` field converted to float; `None` on any
shape mismatch or conversion failure (all caught by the `try`). -/
def extract_underlying_ltp_from_quote (result : PyDict) : Option ℚ :=
  match pyDictGet result "quotes" with
  | JValue.arr (first :: _) =>
    (match first with
     | JValue.obj d =>
       let ltp := pyDictGet d "ltp"
       if jIsNull ltp then none else pyFloat ltp
     | _ => none)
  | _ => none

/-- Stage O7 of the options pipeline (source lines 214-216): textually the
same risk-sizing halt as the swing pipeline's S6 (source lines 124-126). -/
def optionsRiskStage (account_context : PyDict) (st : PlannerState) :
    Sum PlannerResult (Option ℚ) :=
  match risk_budget_from_account account_context with
  | (_, some risk_err) =>
    Sum.inl ⟨"ASK_USER", JValue.str risk_err, st,
             ["account_context.capital", "account_context.max_risk_per_trade"],
             JValue.null, none⟩
  | (rb, none) => Sum.inr rb

/-- Stages O6-O7 of `OptionsBuyingPlanner.run` (source lines 190-224):
spot-quote fetch, best-effort contract selection (which never populates a
contract `security_id`), and the risk/sizing tail. -/
def optionsContractStage (account_context : PyDict) (tools : ToolClient)
    (sid : String) (ex : JValue) (ed : String) (allowed : String)
    (st5 : PlannerState) : Except PyErr PlannerResult :=
  match parseIntStr sid with
  | none => Except.error PyErr.valueError
  | some sidInt =>
  match ex with
  | JValue.arr _ => Except.error PyErr.typeError
  | JValue.obj _ => Except.error PyErr.typeError
  | _ =>
    let quote := tools "get_quote"
      (JValue.obj [("securities",
        JValue.obj [(pyStr ex, JValue.arr [JValue.int sidInt])])])
    let _spot :=
      if jTruthy (pyDictGet quote "success") then
        extract_underlying_ltp_from_quote quote
      else none
    let selected : PyDict :=
      [("option_type", JValue.str (if allowed == "CE_ONLY" then "CE" else "PE")),
       ("strike", JValue.null),
       ("security_id", JValue.null),
       ("exchange_segment", JValue.null),
       ("expiry", JValue.str ed)]
    let st6 : PlannerState := { st5 with selected_option := selected }
    if jIsNull (pyDictGet selected "security_id") then
      Except.ok ⟨"ASK_USER",
        JValue.str "I have the option chain, but I can’t reliably extract the option contract security_id/strike from this response shape yet. Which option contract (security_id, exchange_segment) should I analyze for LTP/risk sizing?",
        st6, ["option_security_id", "option_exchange_segment"], JValue.null, none⟩
    else
    match optionsRiskStage account_context st6 with
    | Sum.inl halt => Except.ok halt
    | Sum.inr _ =>
      Except.ok ⟨"ASK_USER",
        JValue.str "To compute quantity safely, I need the option lot_size and option LTP. Provide lot_size, or allow me to add a tool to fetch contract details/lot size.",
        st6, ["lot_size"], JValue.null, none⟩

/-- Stage O5 of `OptionsBuyingPlanner.run` (source lines 159-189): expiry
discovery and the option-chain snapshot, then `optionsContractStage`. -/
def optionsChainStage (today : String) (account_context : PyDict) (tools : ToolClient)
    (sid : String) (ex : JValue) (allowed : String) (st4 : PlannerState) :
    Except PyErr PlannerResult :=
  let expiry_res := tools "get_expiry_list"
    (JValue.obj [("underlying_security_id", JValue.str sid), ("exchange_segment", ex)])
  let expiry_date :=
    if jTruthy (pyDictGet expiry_res "success") then
      pick_nearest_expiry today (pyDictGet expiry_res "data")
    else none
  match expiry_date with
  | none =>
    Except.ok ⟨"ASK_USER",
      JValue.str "I couldn’t determine the expiry date for the option chain. Which expiry_date (YYYY-MM-DD) should I use?",
      st4, ["expiry_date"], JValue.null, none⟩
  | some ed =>
  if ed == "" then
    Except.ok ⟨"ASK_USER",
      JValue.str "I couldn’t determine the expiry date for the option chain. Which expiry_date (YYYY-MM-DD) should I use?",
      st4, ["expiry_date"], JValue.null, none⟩
  else
  let oc := tools "get_option_chain"
    (JValue.obj [("underlying_security_id", JValue.str sid), ("exchange_segment", ex),
                 ("expiry_date", JValue.str ed)])
  if !jTruthy (pyDictGet oc "success") then
    if jEqStr (pyDictGet oc "action") "ASK_USER"
        || jEqStr (pyDictGet oc "action") "ASK_USER_INVALID" then
      Except.ok ⟨"ASK_USER",
        pyDictGetD oc "error" (JValue.str "Missing information to fetch option chain."),
        st4, [], JValue.null, none⟩
    else
      Except.ok ⟨"ERROR", JValue.str "Failed to fetch option chain.", st4, [],
        pyDictGet oc "error", none⟩
  else
  let st5 : PlannerState :=
    { st4 with option_chain := [("expiry_date", JValue.str ed),
                                 ("raw", pyDictGet oc "data")] }
  optionsContractStage account_context tools sid ex ed allowed st5

/-- Stage O4 of `OptionsBuyingPlanner.run` (source lines 139-157): intraday
fetch and lower-timeframe confirmation, then `optionsChainStage`. -/
def optionsLtfStage (today : String) (account_context : PyDict) (tools : ToolClient)
    (sid : String) (ex itype : JValue) (inst_type : String) (allowed : String)
    (st3 : PlannerState) : Except PyErr PlannerResult :=
  let intraday := tools "get_intraday_ohlcv"
    (JValue.obj [("security_id", JValue.str sid), ("exchange_segment", ex),
                 ("instrument_type", pyOrJ itype (JValue.str inst_type)),
                 ("interval", JValue.str "5"),
                 ("from_date", JValue.str today), ("to_date", JValue.str today)])
  if !jTruthy (pyDictGet intraday "success") then
    if jEqStr (pyDictGet intraday "action") "ASK_USER"
        || jEqStr (pyDictGet intraday "action") "ASK_USER_INVALID" then
      Except.ok ⟨"ASK_USER",
        pyDictGetD intraday "error" (JValue.str "Missing information to fetch intraday OHLCV."),
        st3, [], JValue.null, none⟩
    else
      Except.ok ⟨"ERROR", JValue.str "Failed to fetch intraday OHLCV.", st3, [],
        pyDictGet intraday "error", none⟩
  else
  let intra_candles :=
    match pyDictGet intraday "data" with
    | JValue.arr xs => xs
    | _ => []
  let ltf := classify_ltf_structure intra_candles
  let st4 : PlannerState :=
    { st3 with ltf := [("ltf_structure", JValue.str ltf.1),
                       ("entry_permission", JValue.bool ltf.2),
                       ("interval", JValue.str "5")] }
  if !ltf.2 then
    Except.ok ⟨"NO_TRADE",
      JValue.str "LTF structure does not confirm entry. Planner blocks the trade (WAIT/NO_TRADE).",
      st4, [], JValue.null, none⟩
  else
    optionsChainStage today account_context tools sid ex allowed st4

/-- Stage O3 of `OptionsBuyingPlanner.run` (source lines 119-137): daily
fetch and higher-timeframe bias, then `optionsLtfStage`. -/
def optionsHtfStage (today daysAgo60 : String) (account_context : PyDict)
    (tools : ToolClient) (sid : String) (ex itype : JValue) (inst_type : String)
    (st2 : PlannerState) : Except PyErr PlannerResult :=
  let daily := tools "get_daily_ohlcv"
    (JValue.obj [("security_id", JValue.str sid), ("exchange_segment", ex),
                 ("instrument_type", pyOrJ itype (JValue.str inst_type)),
                 ("from_date", JValue.str daysAgo60), ("to_date", JValue.str today)])
  if !jTruthy (pyDictGet daily "success") then
    if jEqStr (pyDictGet daily "action") "ASK_USER"
        || jEqStr (pyDictGet daily "action") "ASK_USER_INVALID" then
      Except.ok ⟨"ASK_USER",
        pyDictGetD daily "error" (JValue.str "Missing information to fetch daily OHLCV."),
        st2, [], JValue.null, none⟩
    else
      Except.ok ⟨"ERROR", JValue.str "Failed to fetch daily OHLCV.", st2, [],
        pyDictGet daily "error", none⟩
  else
  let daily_candles :=
    match pyDictGet daily "data" with
    | JValue.arr xs => xs
    | _ => []
  let htf := classify_htf_bias daily_candles
  let st3 : PlannerState :=
    { st2 with htf := [("htf_bias", JValue.str htf.1),
                       ("allowed_direction", JValue.str htf.2)] }
  if htf.2 == "NO_TRADE" then
    Except.ok ⟨"NO_TRADE",
      JValue.str "HTF regime is RANGE/CHOP. Options buying is blocked by planner rules.",
      st3, [], JValue.null, none⟩
  else
    optionsLtfStage today account_context tools sid ex itype inst_type htf.2 st3

/-- `OptionsBuyingPlanner.run(user_query, account_context, tools)` (stages
O1-O2; the rest lives in the stage functions above).  `today` and `daysAgo60`
stand for `today_yyyy_mm_dd()` and `days_ago_yyyy_mm_dd(60)`. -/
def optionsRun (today daysAgo60 : String) (user_query : String)
    (account_context : PyDict) (tools : ToolClient) : Except PyErr PlannerResult :=
  match extract_symbol_guess user_query with
  | none =>
    Except.ok ⟨"ASK_USER",
      JValue.str "Which underlying should I analyze for options buying (e.g., NIFTY, BANKNIFTY, SENSEX, RELIANCE)?",
      {}, ["underlying_symbol"], JValue.null, none⟩
  | some underlying_symbol =>
  let st1 : PlannerState :=
    { intent := [("underlying_symbol", JValue.str underlying_symbol),
                 ("trade_type", JValue.str "OPTIONS_BUYING"),
                 ("time_horizon", JValue.str "INTRADAY"),
                 ("direction", JValue.str "UNKNOWN")] }
  let inst_type := if is_index_symbol underlying_symbol then "INDEX" else "EQUITY"
  let inst_res := tools "find_instrument"
    (JValue.obj [("query", JValue.str underlying_symbol),
                 ("instrument_type", JValue.str inst_type), ("limit", JValue.int 1)])
  if !jTruthy (pyDictGet inst_res "success") then
    Except.ok ⟨"NO_TRADE",
      JValue.str ("Could not resolve instrument for \x27" ++ underlying_symbol ++ "\x27: "
        ++ pyStr (pyDictGet inst_res "error")),
      st1, [], JValue.null, none⟩
  else
  match instrumentsOf inst_res with
  | Except.error e => Except.error e
  | Except.ok instruments =>
  match instruments with
  | JValue.arr (inst :: _) =>
    (match inst with
     | JValue.obj instD =>
       let sid := pyStr (pyDictGet instD "security_id")
       let ex := pyDictGet instD "exchange_segment"
       let itype := pyOrJ (pyDictGet instD "instrument_type") (JValue.str inst_type)
       let st2 : PlannerState :=
         { st1 with instrument :=
             [("security_id", JValue.str sid), ("exchange_segment", ex),
              ("instrument_type", itype)] }
       if sid == "" || !jTruthy ex then
         Except.ok ⟨"NO_TRADE",
           JValue.str "Instrument resolution returned incomplete data (missing security_id/exchange_segment).",
           st2, [], JValue.null, none⟩
       else
         optionsHtfStage today daysAgo60 account_context tools sid ex itype inst_type st2
     | _ => Except.error PyErr.attributeError)
  | _ =>
    Except.ok ⟨"NO_TRADE",
      JValue.str ("Could not resolve instrument for \x27" ++ underlying_symbol ++ "\x27."),
      st1, [], JValue.null, none⟩

/-! ## Concrete inputs used by the witness theorems -/

/-- A flat daily candle (close 100). -/
def wCandleA : JValue :=
  JValue.obj [("close", JValue.num 100), ("high", JValue.num 101),
              ("low", JValue.num 99), ("volume", JValue.num 5)]

/-- A breakout daily candle (close 200, low 90). -/
def wCandleB : JValue :=
  JValue.obj [("close", JValue.num 200), ("high", JValue.num 201),
              ("low", JValue.num 90), ("volume", JValue.num 5)]

/-- Sixty daily candles whose SMA20 (105) exceeds SMA50 (102) with last
close 200: a clear uptrend. -/
def wDaily : List JValue :=
  List.replicate 59 wCandleA ++ [wCandleB]

/-- A tool caller that resolves one instrument and serves `wDaily`. -/
def wTools : ToolClient := fun name _ =>
  if name == "find_instrument" then
    [("success", JValue.bool true),
     ("instruments", JValue.arr [JValue.obj
       [("security_id", JValue.int 1), ("exchange_segment", JValue.str "NSE_EQ")]])]
  else if name == "get_daily_ohlcv" then
    [("success", JValue.bool true), ("data", JValue.arr wDaily)]
  else []

/-- An account context with capital 100000 and 1% risk per trade. -/
def wCtx : PyDict :=
  [("capital", JValue.num 100000), ("max_risk_per_trade", JValue.num 1)]

/-- Thirty intraday candles whose last close (5) sits below VWAP (59/6):
bearish-only confirmation. -/
def wLtf : List JValue :=
  List.replicate 29 (JValue.obj [("high", JValue.num 10), ("low", JValue.num 10),
    ("close", JValue.num 10), ("volume", JValue.num 1)])
  ++ [JValue.obj [("high", JValue.num 10), ("low", JValue.num 0),
       ("close", JValue.num 5), ("volume", JValue.num 1)]]

/-- An expiry payload with one past and two future dates. -/
def wExpiryPayload : JValue :=
  JValue.arr [JValue.str "2026-09-01", JValue.str "2026-12-25", JValue.str "2026-10-30"]

/-! ## Lemmas and claim theorems -/

theorem detect_missing_eq_nil_iff (schema : Schema) (payload : PyDict) :
    detect_missing_fields schema payload = [] ↔
      ∀ f ∈ schemaRequired schema, hasKey payload f = true := by
  simp [detect_missing_fields, List.filter_eq_nil_iff]

theorem validationErrors_eq_nil_iff (schema : Schema) (payload : PyDict) :
    validationErrors schema payload = [] ↔ PayloadConforms schema payload := by
  induction schema with
  | objS props required =>
    simp only [validationErrors, PayloadConforms, List.flatten_eq_nil_iff, List.mem_map]
    constructor
    · rintro h k fs hin v hv
      have := h _ ⟨(k, fs), hin, rfl⟩
      rw [hv] at this
      by_contra hfo
      simp [Bool.not_eq_true] at hfo
      simp [hfo] at this
    · rintro h l ⟨⟨k, fs⟩, hin, rfl⟩
      cases hv : List.lookup k payload with
      | none => simp
      | some v => simp [h k fs hin v hv]
  | allOf2 base extra ih1 ih2 =>
    simp [validationErrors, PayloadConforms, List.append_eq_nil, ih1, ih2]

/-- Claim C1: for every contract schema and payload, `guard_tool_call` returns
action `PROCEED` if and only if every property name in the schema's top-level
`required` list is present as a key of the payload and, when full validation
is active, no present field of the payload violates its declared
type/enum/pattern constraint in the schema. -/
theorem claim_C1_guard_proceed_iff (full : Bool) (intent : String) (schema : Schema)
    (payload : PyDict) :
    pyDictGet (guard_tool_call full intent schema payload) "action" = JValue.str "PROCEED"
    ↔ ((∀ f ∈ schemaRequired schema, hasKey payload f = true)
       ∧ (full = true → PayloadConforms schema payload)) := by
  have hmiss := detect_missing_eq_nil_iff schema payload
  have hval := validationErrors_eq_nil_iff schema payload
  by_cases hm : detect_missing_fields schema payload = []
  · cases full with
    | true =>
      by_cases he : validationErrors schema payload = []
      · have hg : guard_tool_call true intent schema payload
            = [("action", JValue.str "PROCEED"), ("intent", JValue.str intent)] := by
          unfold guard_tool_call jsonschema_validate
          simp [hm, he]
        rw [hg]
        exact ⟨fun _ => ⟨hmiss.mp hm, fun _ => hval.mp he⟩, fun _ => rfl⟩
      · have hg : pyDictGet (guard_tool_call true intent schema payload) "action"
            = JValue.str "ASK_USER_INVALID" := by
          unfold guard_tool_call jsonschema_validate
          simp [hm, he, pyDictGet, List.lookup]
        rw [hg]
        constructor
        · intro h
          exact absurd h (by simp)
        · rintro ⟨_, h2⟩
          exact absurd (hval.mpr (h2 rfl)) he
    | false =>
      have hg : guard_tool_call false intent schema payload
          = [("action", JValue.str "PROCEED"), ("intent", JValue.str intent)] := by
        unfold guard_tool_call jsonschema_validate
        simp [hm]
      rw [hg]
      exact ⟨fun _ => ⟨hmiss.mp hm, fun h => absurd h (by simp)⟩, fun _ => rfl⟩
  · have hg : pyDictGet (guard_tool_call full intent schema payload) "action"
        = JValue.str "ASK_USER" := by
      unfold guard_tool_call
      simp [hm, pyDictGet, List.lookup]
    rw [hg]
    constructor
    · intro h
      exact absurd h (by simp)
    · rintro ⟨h1, _⟩
      exact absurd (hmiss.mpr h1) hm

/-- Claim C7: whenever at least one required property is absent,
`guard_tool_call` returns the `ASK_USER` dict carrying exactly the absent
required properties in `required`-list order, with no type/enum/pattern
validation performed or reported (the result is the same for both validation
capabilities and contains no `invalid_fields` key). -/
theorem claim_C7_missing_priority (full : Bool) (intent : String) (schema : Schema)
    (payload : PyDict) (h : detect_missing_fields schema payload ≠ []) :
    guard_tool_call full intent schema payload
      = [("action", JValue.str "ASK_USER"), ("intent", JValue.str intent),
         ("missing_fields", JValue.arr ((detect_missing_fields schema payload).map JValue.str)),
         ("message", JValue.str ("I need " ++ joinSep ", " (detect_missing_fields schema payload)
            ++ " to proceed."))]
    ∧ detect_missing_fields schema payload
      = (schemaRequired schema).filter (fun f => !hasKey payload f) := by
  refine ⟨?_, rfl⟩
  unfold guard_tool_call
  simp [h]

theorem claim_C7_w :
    guard_tool_call true "get_intraday_ohlcv" IntradayOHLCVSchema
        [("security_id", JValue.str "1")]
      = [("action", JValue.str "ASK_USER"), ("intent", JValue.str "get_intraday_ohlcv"),
         ("missing_fields", JValue.arr ((["exchange_segment", "instrument_type", "interval",
            "from_date", "to_date"] : List String).map JValue.str)),
         ("message", JValue.str "I need exchange_segment, instrument_type, interval, from_date, to_date to proceed.")] :=
  (claim_C7_missing_priority true "get_intraday_ohlcv" IntradayOHLCVSchema
    [("security_id", JValue.str "1")] (by decide)).1

/-- Claim C8: a payload lacking the discriminating field `interval` makes
`resolve_historical_schema` return the stricter intraday contract, whose
`required` list contains `interval`, so the guard routes such a payload to an
`ASK_USER` verdict instead of executing it with an inferred default. -/
theorem claim_C8_resolver_strict (payload : PyDict) (full : Bool) (intent : String)
    (h : hasKey payload "interval" = false) :
    resolve_historical_schema payload = IntradayOHLCVSchema
    ∧ "interval" ∈ schemaRequired (resolve_historical_schema payload)
    ∧ pyDictGet (guard_tool_call full intent (resolve_historical_schema payload) payload) "action"
        = JValue.str "ASK_USER" := by
  have hlk : List.lookup "interval" payload = none := by
    cases hl : List.lookup "interval" payload with
    | none => rfl
    | some v => rw [hasKey, hl] at h; simp at h
  have hres : resolve_historical_schema payload = IntradayOHLCVSchema := by
    unfold resolve_historical_schema
    simp [pyDictGet, hlk, jIsNull]
  refine ⟨hres, ?_, ?_⟩
  · rw [hres]
    decide
  · rw [hres]
    have hmem : "interval" ∈ detect_missing_fields IntradayOHLCVSchema payload := by
      unfold detect_missing_fields
      rw [List.mem_filter]
      exact ⟨by decide, by simp [h]⟩
    have hne : detect_missing_fields IntradayOHLCVSchema payload ≠ [] :=
      List.ne_nil_of_mem hmem
    unfold guard_tool_call
    simp [hne, pyDictGet, List.lookup]

theorem claim_C8_w :
    resolve_historical_schema [] = IntradayOHLCVSchema
    ∧ "interval" ∈ schemaRequired (resolve_historical_schema [])
    ∧ pyDictGet (guard_tool_call true "get_historical_data" (resolve_historical_schema []) [])
        "action" = JValue.str "ASK_USER" :=
  claim_C8_resolver_strict [] true "get_historical_data" (by decide)

theorem claim_C1_w :
    pyDictGet (guard_tool_call true "get_intraday_ohlcv" IntradayOHLCVSchema
        [("security_id", JValue.str "123"), ("exchange_segment", JValue.str "NSE_EQ"),
         ("instrument_type", JValue.str "EQUITY"), ("interval", JValue.str "5"),
         ("from_date", JValue.str "2026-10-01"), ("to_date", JValue.str "2026-10-12")])
      "action" = JValue.str "PROCEED" :=
  (claim_C1_guard_proceed_iff true "get_intraday_ohlcv" IntradayOHLCVSchema
      [("security_id", JValue.str "123"), ("exchange_segment", JValue.str "NSE_EQ"),
       ("instrument_type", JValue.str "EQUITY"), ("interval", JValue.str "5"),
       ("from_date", JValue.str "2026-10-01"), ("to_date", JValue.str "2026-10-12")]).mpr
    ⟨by decide, fun _ => (validationErrors_eq_nil_iff _ _).mp (by rfl)⟩

/-- Claim C3: `classify_htf_bias` returns `(RANGE, NO_TRADE)` for any candle
series yielding fewer than 60 closing prices; with at least 60 closes it
returns `(BULLISH, CE_ONLY)` iff SMA20 > SMA50 and the last close > SMA20,
`(BEARISH, PE_ONLY)` iff SMA20 < SMA50 and the last close < SMA20, and
`(RANGE, NO_TRADE)` in every other case. -/
theorem claim_C3_htf_bias (candles : List JValue) :
    ((extractCloses candles).length < 60 → classify_htf_bias candles = ("RANGE", "NO_TRADE"))
    ∧ (60 ≤ (extractCloses candles).length →
       ∀ s20 s50, sma (extractCloses candles) 20 = some s20 →
         sma (extractCloses candles) 50 = some s50 →
         ((classify_htf_bias candles = ("BULLISH", "CE_ONLY")
             ↔ (s20 > s50 ∧ (extractCloses candles).getLastD 0 > s20))
          ∧ (classify_htf_bias candles = ("BEARISH", "PE_ONLY")
             ↔ (s20 < s50 ∧ (extractCloses candles).getLastD 0 < s20))
          ∧ (classify_htf_bias candles = ("RANGE", "NO_TRADE")
             ↔ (¬(s20 > s50 ∧ (extractCloses candles).getLastD 0 > s20)
                ∧ ¬(s20 < s50 ∧ (extractCloses candles).getLastD 0 < s20))))) := by
  constructor
  · intro h
    unfold classify_htf_bias
    rw [if_pos h]
  · intro h60 s20 s50 h20 h50
    unfold classify_htf_bias
    rw [if_neg (by omega), h20, h50]
    dsimp only
    by_cases h1 : s20 > s50 ∧ (extractCloses candles).getLastD 0 > s20
    · rw [if_pos h1]
      exact ⟨iff_of_true rfl h1,
             iff_of_false (by decide) (fun hc => absurd hc.1 (lt_asymm h1.1)),
             iff_of_false (by decide) (fun hc => hc.1 h1)⟩
    · by_cases h2 : s20 < s50 ∧ (extractCloses candles).getLastD 0 < s20
      · rw [if_neg h1, if_pos h2]
        exact ⟨iff_of_false (by decide) (fun hc => absurd hc.1 (lt_asymm h2.1)),
               iff_of_true rfl h2,
               iff_of_false (by decide) (fun hc => hc.2 h2)⟩
      · rw [if_neg h1, if_neg h2]
        exact ⟨iff_of_false (by decide) (fun hc => h1 hc),
               iff_of_false (by decide) (fun hc => h2 hc),
               iff_of_true rfl ⟨h1, h2⟩⟩

set_option maxRecDepth 4000 in
theorem claim_C3_w :
    classify_htf_bias wDaily = ("BULLISH", "CE_ONLY")
    ∧ classify_htf_bias [] = ("RANGE", "NO_TRADE") :=
  ⟨((claim_C3_htf_bias wDaily).2 (by decide) 105 102 (by decide) (by decide)).1.mpr
     ⟨by decide, by decide⟩,
   (claim_C3_htf_bias []).1 (by decide)⟩

/-- Claim C4: `classify_ltf_structure` returns `NEUTRAL` with no entry
permission whenever the input has fewer than 30 candles, whenever the last
close cannot be extracted, and whenever the bullish and bearish conditions
both hold or neither holds; it grants entry with `BULLISH` exactly when only
the bullish condition holds (close above VWAP and latest 20-candle swing high
at least the swing high excluding the most recent candle) and with `BEARISH`
exactly when only the bearish condition (close below VWAP) holds. -/
theorem claim_C4_ltf_structure (candles : List JValue) :
    (candles.length < 30 → classify_ltf_structure candles = ("NEUTRAL", false))
    ∧ (30 ≤ candles.length → extractLastClose candles = none →
        classify_ltf_structure candles = ("NEUTRAL", false))
    ∧ (∀ lastc, 30 ≤ candles.length → extractLastClose candles = some lastc →
       ∀ b1 b2,
         ltfBullish (vwap candles) lastc (recent_swing_high candles 20)
           (if candles.length > 1 then recent_swing_high candles.dropLast 20 else none) = b1 →
         ltfBearish (vwap candles) lastc = b2 →
         ((classify_ltf_structure candles = ("BULLISH", true) ↔ (b1 = true ∧ b2 = false))
          ∧ (classify_ltf_structure candles = ("BEARISH", true) ↔ (b2 = true ∧ b1 = false))
          ∧ (classify_ltf_structure candles = ("NEUTRAL", false)
              ↔ ((b1 = true ∧ b2 = true) ∨ (b1 = false ∧ b2 = false))))) := by
  refine ⟨?_, ?_, ?_⟩
  · intro h
    unfold classify_ltf_structure
    rw [if_pos h]
  · intro h30 hnone
    unfold classify_ltf_structure
    rw [if_neg (by omega)]
    dsimp only
    rw [hnone]
  · intro lastc h30 hsome b1 b2 hb1 hb2
    unfold classify_ltf_structure
    rw [if_neg (by omega)]
    dsimp only
    rw [hsome]
    dsimp only
    rw [hb1, hb2]
    cases b1 <;> cases b2 <;> simp

set_option maxRecDepth 4000 in
theorem claim_C4_w :
    classify_ltf_structure wLtf = ("BEARISH", true)
    ∧ classify_ltf_structure [] = ("NEUTRAL", false) :=
  ⟨((claim_C4_ltf_structure wLtf).2.2 5 (by decide) (by decide) false true
      (by decide) (by decide)).2.1.mpr ⟨rfl, rfl⟩,
   (claim_C4_ltf_structure []).1 (by decide)⟩

theorem jIsNull_eq_true_iff (v : JValue) : jIsNull v = true ↔ v = JValue.null := by
  cases v <;> simp [jIsNull]

/-- Claim C5: `risk_budget_from_account` returns a defined budget equal to
`capital * (max_risk_per_trade / 100)` - a positive amount - if and only if
both inputs are present, numeric (convert via `float`) and strictly positive;
in every other case it returns no amount together with a guidance message,
never a defaulted value (third conjunct: the result is always either
`(some budget, none)` or `(none, some message)`; fourth conjunct: whenever
the validity conditions fail, the result is exactly `(none, some message)`,
so no defaulted amount such as `some 0` can ever be produced). -/
theorem claim_C5_risk_budget (ctx : PyDict) :
    (∀ c p, pyFloat (pyDictGet ctx "capital") = some c →
       pyFloat (pyDictGet ctx "max_risk_per_trade") = some p → 0 < c → 0 < p →
       risk_budget_from_account ctx = (some (c * (p / 100)), none) ∧ 0 < c * (p / 100))
    ∧ ((∃ b, (risk_budget_from_account ctx).1 = some b ∧ 0 < b)
        ↔ (∃ c p, pyFloat (pyDictGet ctx "capital") = some c
             ∧ pyFloat (pyDictGet ctx "max_risk_per_trade") = some p ∧ 0 < c ∧ 0 < p))
    ∧ ((∃ b, risk_budget_from_account ctx = (some b, none))
        ∨ (∃ m, risk_budget_from_account ctx = (none, some m)))
    ∧ (¬ (∃ c p, pyFloat (pyDictGet ctx "capital") = some c
            ∧ pyFloat (pyDictGet ctx "max_risk_per_trade") = some p ∧ 0 < c ∧ 0 < p) →
        ∃ m, risk_budget_from_account ctx = (none, some m)) := by
  refine ⟨?_, ?_, ?_, ?_⟩
  · intro c p hc hp hc0 hp0
    have hcnn : jIsNull (pyDictGet ctx "capital") = false := by
      rw [Bool.eq_false_iff]
      intro hn
      rw [(jIsNull_eq_true_iff _).mp hn] at hc
      simp [pyFloat] at hc
    have hpnn : jIsNull (pyDictGet ctx "max_risk_per_trade") = false := by
      rw [Bool.eq_false_iff]
      intro hn
      rw [(jIsNull_eq_true_iff _).mp hn] at hp
      simp [pyFloat] at hp
    unfold risk_budget_from_account
    dsimp only
    simp only [hcnn, hpnn, Bool.false_eq_true, if_false, hc, hp]
    rw [if_neg (by push_neg; exact ⟨hc0, hp0⟩)]
    exact ⟨rfl, by positivity⟩
  · constructor
    · rintro ⟨b, hb, hb0⟩
      unfold risk_budget_from_account at hb
      dsimp only at hb
      by_cases h1 : jIsNull (pyDictGet ctx "capital") = true
      · rw [if_pos h1] at hb; simp at hb
      · rw [if_neg h1] at hb
        by_cases h2 : jIsNull (pyDictGet ctx "max_risk_per_trade") = true
        · rw [if_pos h2] at hb; simp at hb
        · rw [if_neg h2] at hb
          cases hc : pyFloat (pyDictGet ctx "capital") with
          | none =>
            rw [hc] at hb
            cases hp : pyFloat (pyDictGet ctx "max_risk_per_trade") <;>
              rw [hp] at hb <;> simp at hb
          | some c =>
            cases hp : pyFloat (pyDictGet ctx "max_risk_per_trade") with
            | none => rw [hc, hp] at hb; simp at hb
            | some p =>
              rw [hc, hp] at hb
              dsimp only at hb
              by_cases hle : c ≤ 0 ∨ p ≤ 0
              · rw [if_pos hle] at hb; simp at hb
              · push_neg at hle
                exact ⟨c, p, rfl, rfl, hle.1, hle.2⟩
    · rintro ⟨c, p, hc, hp, hc0, hp0⟩
      have hcnn : jIsNull (pyDictGet ctx "capital") = false := by
        rw [Bool.eq_false_iff]
        intro hn
        rw [(jIsNull_eq_true_iff _).mp hn] at hc
        simp [pyFloat] at hc
      have hpnn : jIsNull (pyDictGet ctx "max_risk_per_trade") = false := by
        rw [Bool.eq_false_iff]
        intro hn
        rw [(jIsNull_eq_true_iff _).mp hn] at hp
        simp [pyFloat] at hp
      refine ⟨c * (p / 100), ?_, by positivity⟩
      unfold risk_budget_from_account
      dsimp only
      simp only [hcnn, hpnn, Bool.false_eq_true, if_false, hc, hp]
      rw [if_neg (by push_neg; exact ⟨hc0, hp0⟩)]
  · unfold risk_budget_from_account
    dsimp only
    by_cases h1 : jIsNull (pyDictGet ctx "capital") = true
    · rw [if_pos h1]; right; exact ⟨_, rfl⟩
    · rw [if_neg h1]
      by_cases h2 : jIsNull (pyDictGet ctx "max_risk_per_trade") = true
      · rw [if_pos h2]; right; exact ⟨_, rfl⟩
      · rw [if_neg h2]
        cases hc : pyFloat (pyDictGet ctx "capital") with
        | none =>
          cases hp : pyFloat (pyDictGet ctx "max_risk_per_trade") <;> simp
        | some c =>
          cases hp : pyFloat (pyDictGet ctx "max_risk_per_trade") with
          | none => right; exact ⟨_, rfl⟩
          | some p =>
            dsimp only
            by_cases hle : c ≤ 0 ∨ p ≤ 0
            · rw [if_pos hle]; right; exact ⟨_, rfl⟩
            · rw [if_neg hle]; left; exact ⟨_, rfl⟩
  · intro hnot
    unfold risk_budget_from_account
    dsimp only
    by_cases h1 : jIsNull (pyDictGet ctx "capital") = true
    · rw [if_pos h1]; exact ⟨_, rfl⟩
    · rw [if_neg h1]
      by_cases h2 : jIsNull (pyDictGet ctx "max_risk_per_trade") = true
      · rw [if_pos h2]; exact ⟨_, rfl⟩
      · rw [if_neg h2]
        cases hc : pyFloat (pyDictGet ctx "capital") with
        | none =>
          cases hp : pyFloat (pyDictGet ctx "max_risk_per_trade") <;> exact ⟨_, rfl⟩
        | some c =>
          cases hp : pyFloat (pyDictGet ctx "max_risk_per_trade") with
          | none => exact ⟨_, rfl⟩
          | some p =>
            dsimp only
            by_cases hle : c ≤ 0 ∨ p ≤ 0
            · rw [if_pos hle]; exact ⟨_, rfl⟩
            · push_neg at hle
              exact absurd ⟨c, p, hc, hp, hle.1, hle.2⟩ hnot

theorem claim_C5_w :
    (risk_budget_from_account wCtx = (some 1000, none) ∧ (0 : ℚ) < 1000)
    ∧ (∃ m, risk_budget_from_account [] = (none, some m)) := by
  refine ⟨?_, ?_⟩
  · have h := (claim_C5_risk_budget wCtx).1 100000 1 (by decide) (by decide) (by decide) (by decide)
    simpa using h
  · refine (claim_C5_risk_budget []).2.2.2 ?_
    rintro ⟨c, p, hc, -⟩
    simp [pyDictGet, pyFloat] at hc

/-- Claim C9: whenever a pipeline's risk-sizing stage halts because the
account context is missing, non-numeric or non-positive, the returned
result has action `ASK_USER` and `missing_fields` exactly
`["account_context.capital", "account_context.max_risk_per_trade"]`, both
names listed together even when only one input is bad - in the swing and the
options pipeline alike. -/
theorem claim_C9_sizing_halt_fields (ctx : PyDict) (st1 st2 : PlannerState)
    (r1 r2 : PlannerResult) :
    (swingRiskStage ctx st1 = Sum.inl r1 →
       r1.action = "ASK_USER"
       ∧ r1.missing_fields = ["account_context.capital", "account_context.max_risk_per_trade"])
    ∧ (optionsRiskStage ctx st2 = Sum.inl r2 →
       r2.action = "ASK_USER"
       ∧ r2.missing_fields = ["account_context.capital", "account_context.max_risk_per_trade"]) := by
  constructor
  · intro h
    unfold swingRiskStage at h
    rcases hrb : risk_budget_from_account ctx with ⟨rb, err⟩
    rw [hrb] at h
    cases err with
    | some e =>
      dsimp only at h
      injection h with h2
      subst h2
      exact ⟨rfl, rfl⟩
    | none =>
      dsimp only at h
      exact Sum.noConfusion h
  · intro h
    unfold optionsRiskStage at h
    rcases hrb : risk_budget_from_account ctx with ⟨rb, err⟩
    rw [hrb] at h
    cases err with
    | some e =>
      dsimp only at h
      injection h with h2
      subst h2
      exact ⟨rfl, rfl⟩
    | none =>
      dsimp only at h
      exact Sum.noConfusion h

theorem claim_C9_w :
    ((⟨"ASK_USER", JValue.str "I need account_context.capital to size risk.", {},
        ["account_context.capital", "account_context.max_risk_per_trade"], JValue.null,
        none⟩ : PlannerResult).action = "ASK_USER"
     ∧ (⟨"ASK_USER", JValue.str "I need account_context.capital to size risk.", {},
          ["account_context.capital", "account_context.max_risk_per_trade"], JValue.null,
          none⟩ : PlannerResult).missing_fields
        = ["account_context.capital", "account_context.max_risk_per_trade"])
    ∧ ((⟨"ASK_USER", JValue.str "I need account_context.capital to size risk.", {},
          ["account_context.capital", "account_context.max_risk_per_trade"], JValue.null,
          none⟩ : PlannerResult).action = "ASK_USER"
       ∧ (⟨"ASK_USER", JValue.str "I need account_context.capital to size risk.", {},
            ["account_context.capital", "account_context.max_risk_per_trade"], JValue.null,
            none⟩ : PlannerResult).missing_fields
          = ["account_context.capital", "account_context.max_risk_per_trade"]) := by
  have h := claim_C9_sizing_halt_fields [] {} {}
    ⟨"ASK_USER", JValue.str "I need account_context.capital to size risk.", {},
     ["account_context.capital", "account_context.max_risk_per_trade"], JValue.null, none⟩
    ⟨"ASK_USER", JValue.str "I need account_context.capital to size risk.", {},
     ["account_context.capital", "account_context.max_risk_per_trade"], JValue.null, none⟩
  exact ⟨h.1 rfl, h.2 rfl⟩

theorem optionsRiskStage_inl {ctx : PyDict} {st : PlannerState} {r : PlannerResult}
    (h : optionsRiskStage ctx st = Sum.inl r) : r.action = "ASK_USER" := by
  unfold optionsRiskStage at h
  rcases hrb : risk_budget_from_account ctx with ⟨rb, err⟩
  rw [hrb] at h
  cases err with
  | some e =>
    dsimp only at h
    injection h with h2
    subst h2
    rfl
  | none =>
    dsimp only at h
    exact Sum.noConfusion h

theorem optionsContractStage_ok {account_context : PyDict} {tools : ToolClient}
    {sid : String} {ex : JValue} {ed allowed : String} {st5 : PlannerState}
    {r : PlannerResult}
    (h : optionsContractStage account_context tools sid ex ed allowed st5 = Except.ok r) :
    r.action ≠ "DECISION" := by
  unfold optionsContractStage optionsRiskStage at h
  repeat' (first | split at h | dsimp only at h)
  all_goals first
    | exact Except.noConfusion h
    | (injection h with h2; subst h2; intro hc; simp at hc)
    | simp_all

theorem optionsChainStage_ok {today : String} {account_context : PyDict}
    {tools : ToolClient} {sid : String} {ex : JValue} {allowed : String}
    {st4 : PlannerState} {r : PlannerResult}
    (h : optionsChainStage today account_context tools sid ex allowed st4 = Except.ok r) :
    r.action ≠ "DECISION" := by
  unfold optionsChainStage at h
  repeat' (first | split at h | dsimp only at h)
  all_goals first
    | exact Except.noConfusion h
    | (injection h with h2; subst h2; intro hc; simp at hc)
    | exact optionsContractStage_ok h

theorem optionsLtfStage_ok {today : String} {account_context : PyDict}
    {tools : ToolClient} {sid : String} {ex itype : JValue} {inst_type allowed : String}
    {st3 : PlannerState} {r : PlannerResult}
    (h : optionsLtfStage today account_context tools sid ex itype inst_type allowed st3
         = Except.ok r) :
    r.action ≠ "DECISION" := by
  unfold optionsLtfStage at h
  repeat' (first | split at h | dsimp only at h)
  all_goals first
    | exact Except.noConfusion h
    | (injection h with h2; subst h2; intro hc; simp at hc)
    | exact optionsChainStage_ok h

theorem optionsHtfStage_ok {today daysAgo60 : String} {account_context : PyDict}
    {tools : ToolClient} {sid : String} {ex itype : JValue} {inst_type : String}
    {st2 : PlannerState} {r : PlannerResult}
    (h : optionsHtfStage today daysAgo60 account_context tools sid ex itype inst_type st2
         = Except.ok r) :
    r.action ≠ "DECISION" := by
  unfold optionsHtfStage at h
  repeat' (first | split at h | dsimp only at h)
  all_goals first
    | exact Except.noConfusion h
    | (injection h with h2; subst h2; intro hc; simp at hc)
    | exact optionsLtfStage_ok h

/-- Claim C10: for every user query, account context and remote-tool-caller
behaviour, `OptionsBuyingPlanner.run` never returns a result with action
`DECISION`: every normally-terminating run ends in `ASK_USER`, `NO_TRADE` or
`ERROR`, because the contract-selection stage never populates an option
`security_id` and the pipeline halts with `ASK_USER` at or before the
lot-size request. -/
theorem claim_C10_options_never_decision (today daysAgo60 user_query : String)
    (account_context : PyDict) (tools : ToolClient) (r : PlannerResult)
    (h : optionsRun today daysAgo60 user_query account_context tools = Except.ok r) :
    r.action ≠ "DECISION" := by
  unfold optionsRun at h
  repeat' (first | split at h | dsimp only at h)
  all_goals first
    | exact Except.noConfusion h
    | (injection h with h2; subst h2; intro hc; simp at hc)
    | exact optionsHtfStage_ok h

set_option maxRecDepth 8000 in
theorem claim_C10_w :
    (match optionsRun "2026-10-12" "2026-08-13" "NIFTY" [] (fun _ _ => []) with
     | Except.ok r => r
     | Except.error _ => ⟨"", JValue.null, {}, [], JValue.null, none⟩).action
      ≠ "DECISION" :=
  claim_C10_options_never_decision "2026-10-12" "2026-08-13" "NIFTY" [] (fun _ _ => [])
    (match optionsRun "2026-10-12" "2026-08-13" "NIFTY" [] (fun _ _ => []) with
     | Except.ok r => r
     | Except.error _ => ⟨"", JValue.null, {}, [], JValue.null, none⟩) (by rfl)

theorem swingRiskStage_inl {ctx : PyDict} {st : PlannerState} {r : PlannerResult}
    (h : swingRiskStage ctx st = Sum.inl r) : r.action = "ASK_USER" := by
  unfold swingRiskStage at h
  rcases hrb : risk_budget_from_account ctx with ⟨rb, err⟩
  rw [hrb] at h
  cases err with
  | some e =>
    dsimp only at h
    injection h with h2
    subst h2
    rfl
  | none =>
    dsimp only at h
    exact Sum.noConfusion h

theorem swingLevels_decision {symbol : String} {account_context : PyDict}
    {risk_budget : Option ℚ} {daily_candles : List JValue} {last_close : ℚ}
    {st4 : PlannerState} {r : PlannerResult}
    (h : swingLevels symbol account_context risk_budget daily_candles last_close st4
         = Except.ok r)
    (hact : r.action = "DECISION") :
    ∃ (qty : ℤ) (rb rps rr : ℚ),
      r.state.risk = [("quantity", JValue.int qty), ("risk_budget", JValue.num rb),
                      ("risk_per_share", JValue.num rps), ("rr_ratio", JValue.num rr)]
      ∧ 0 < rps ∧ 2 ≤ rr ∧ 1 ≤ qty := by
  unfold swingLevels at h
  repeat' (first | split at h | dsimp only at h)
  all_goals first
    | exact Except.noConfusion h
    | (injection h with h2; subst h2;
       refine ⟨_, _, _, _, rfl, ?_, ?_, ?_⟩ <;> linarith)
    | (injection h with h2; subst h2; simp at hact)

theorem swingAfterDaily_decision {symbol : String} {account_context : PyDict}
    {daily_candles : List JValue} {st2 : PlannerState} {r : PlannerResult}
    (h : swingAfterDaily symbol account_context daily_candles st2 = Except.ok r)
    (hact : r.action = "DECISION") :
    ∃ (qty : ℤ) (rb rps rr : ℚ),
      r.state.risk = [("quantity", JValue.int qty), ("risk_budget", JValue.num rb),
                      ("risk_per_share", JValue.num rps), ("rr_ratio", JValue.num rr)]
      ∧ 0 < rps ∧ 2 ≤ rr ∧ 1 ≤ qty := by
  unfold swingAfterDaily at h
  repeat' (first | split at h | dsimp only at h)
  all_goals first
    | exact Except.noConfusion h
    | exact swingLevels_decision h hact
    | (injection h with h2; subst h2; simp at hact)
    | (injection h with h2; subst h2;
       have hs := swingRiskStage_inl (by assumption)
       rw [hs] at hact
       exact absurd hact (by decide))

/-- Claim C2: for every user query, account context and remote-tool-caller
behaviour, every `DECISION` result of `SwingBuyPlanner.run` has a risk record
with `risk_per_share = entry - stop > 0` (equivalently stop < entry),
`rr_ratio >= 2.0` and `quantity >= 1`; hence the pipeline never reaches
`DECISION` when the derived stop is at or above the entry, the reward:risk
ratio is below 2.0, or the computed quantity is zero or negative. -/
theorem claim_C2_swing_decision_guards (today daysAgo180 user_query : String)
    (account_context : PyDict) (tools : ToolClient) (r : PlannerResult)
    (h : swingRun today daysAgo180 user_query account_context tools = Except.ok r)
    (hact : r.action = "DECISION") :
    ∃ (qty : ℤ) (rb rps rr : ℚ),
      r.state.risk = [("quantity", JValue.int qty), ("risk_budget", JValue.num rb),
                      ("risk_per_share", JValue.num rps), ("rr_ratio", JValue.num rr)]
      ∧ 0 < rps ∧ 2 ≤ rr ∧ 1 ≤ qty := by
  unfold swingRun at h
  repeat' (first | split at h | dsimp only at h)
  all_goals first
    | exact Except.noConfusion h
    | exact swingAfterDaily_decision h hact
    | (injection h with h2; subst h2; simp at hact)

set_option maxRecDepth 8000 in
theorem claim_C2_w :
    ∃ (qty : ℤ) (rb rps rr : ℚ),
      (match swingRun "2026-10-12" "2026-04-15" "RELIANCE" wCtx wTools with
       | Except.ok r => r
       | Except.error _ => ⟨"", JValue.null, {}, [], JValue.null, none⟩).state.risk
        = [("quantity", JValue.int qty), ("risk_budget", JValue.num rb),
           ("risk_per_share", JValue.num rps), ("rr_ratio", JValue.num rr)]
      ∧ 0 < rps ∧ 2 ≤ rr ∧ 1 ≤ qty :=
  claim_C2_swing_decision_guards "2026-10-12" "2026-04-15" "RELIANCE" wCtx wTools
    (match swingRun "2026-10-12" "2026-04-15" "RELIANCE" wCtx wTools with
     | Except.ok r => r
     | Except.error _ => ⟨"", JValue.null, {}, [], JValue.null, none⟩) (by rfl) (by rfl)

theorem charListLt_iff : ∀ x y : List Char, charListLt x y = true ↔ List.Lex (· < ·) x y := by
  intro x
  induction x with
  | nil =>
    intro y
    cases y with
    | nil =>
      simp only [charListLt]
      exact iff_of_false (by decide) (by intro hlex; cases hlex)
    | cons b bs =>
      simp only [charListLt]
      exact iff_of_true trivial List.Lex.nil
  | cons a as ih =>
    intro y
    cases y with
    | nil =>
      simp only [charListLt]
      exact iff_of_false (by decide) (by intro hlex; cases hlex)
    | cons b bs =>
      simp only [charListLt]
      by_cases hab : a < b
      · rw [if_pos hab]
        exact iff_of_true rfl (List.Lex.rel hab)
      · rw [if_neg hab]
        by_cases hba : b < a
        · rw [if_pos hba]
          refine iff_of_false (by decide) ?_
          intro hlex
          cases hlex with
          | rel h => exact hab h
          | cons h => exact lt_irrefl _ hba
        · rw [if_neg hba]
          have hEq : a = b := le_antisymm (not_lt.mp hba) (not_lt.mp hab)
          subst hEq
          rw [List.Lex.cons_iff]
          exact ih bs

theorem pyStrLe_iff (a b : String) : pyStrLe a b = true ↔ a ≤ b := by
  have hlt : ∀ s t : String, s < t ↔ List.Lex (· < ·) s.data t.data := by
    intro s t
    rw [String.lt_iff_toList_lt]
    exact Iff.rfl
  rw [pyStrLe, Bool.not_eq_true']
  constructor
  · intro h
    rw [← not_lt]
    intro hba
    rw [(charListLt_iff _ _).mpr ((hlt b a).mp hba)] at h
    exact Bool.noConfusion h
  · intro h
    rw [Bool.eq_false_iff]
    intro hc
    exact absurd ((hlt b a).mpr ((charListLt_iff _ _).mp hc)) (not_lt.mpr h)

theorem sorted_le_getLast :
    ∀ (S : List String), List.Sorted (fun a b => pyStrLe a b = true) S →
      ∀ x ∈ S, ∀ m, S.getLast? = some m → x ≤ m := by
  intro S
  induction S with
  | nil => intro _ x hx; exact absurd hx (List.not_mem_nil x)
  | cons a rest ih =>
    intro hs x hx m hm
    cases rest with
    | nil =>
      rcases List.mem_singleton.mp hx with rfl
      simp only [List.getLast?_singleton, Option.some.injEq] at hm
      subst hm
      exact le_refl x
    | cons b t =>
      rw [List.getLast?_cons_cons] at hm
      rw [List.sorted_cons] at hs
      rcases List.mem_cons.mp hx with rfl | hx2
      · have hmem : m ∈ b :: t := List.mem_of_getLast?_eq_some hm
        exact (pyStrLe_iff _ _).mp (hs.1 m hmem)
      · exact ih hs.2 x hx2 m hm

/-- Claim C6: nearest-expiry selection returns a date at or after today
whenever the normalized input set contains one; its result on list payloads
is invariant under permutation of the input list; and when no date at or
after today exists (and the normalized set is non-empty), it returns the
lexicographically greatest (latest) available date. -/
theorem claim_C6_nearest_expiry :
    (∀ (today : String) (payload : JValue),
       (∃ e ∈ normalizedExpiries payload, today ≤ e) →
       ∃ ex, pick_nearest_expiry today payload = some ex ∧ today ≤ ex)
    ∧ (∀ (today : String) (l1 l2 : List JValue), l1.Perm l2 →
       pick_nearest_expiry today (JValue.arr l1) = pick_nearest_expiry today (JValue.arr l2))
    ∧ (∀ (today : String) (payload : JValue),
       normalizedExpiries payload ≠ [] →
       (∀ e ∈ normalizedExpiries payload, ¬ today ≤ e) →
       ∃ m, pick_nearest_expiry today payload = some m
         ∧ m ∈ normalizedExpiries payload
         ∧ ∀ e ∈ normalizedExpiries payload, e ≤ m) := by
  haveI instTr : IsTrans String (fun a b => pyStrLe a b = true) :=
    ⟨fun a b c hab hbc =>
      (pyStrLe_iff a c).mpr (le_trans ((pyStrLe_iff a b).mp hab) ((pyStrLe_iff b c).mp hbc))⟩
  haveI instTot : IsTotal String (fun a b => pyStrLe a b = true) :=
    ⟨fun a b => (le_total a b).imp (pyStrLe_iff a b).mpr (pyStrLe_iff b a).mpr⟩
  haveI instAnti : IsAntisymm String (fun a b => pyStrLe a b = true) :=
    ⟨fun a b hab hba => le_antisymm ((pyStrLe_iff a b).mp hab) ((pyStrLe_iff b a).mp hba)⟩
  refine ⟨?_, ?_, ?_⟩
  · rintro today payload ⟨e0, he0, hte0⟩
    unfold pick_nearest_expiry
    rw [if_neg (by simp only [List.isEmpty_eq_true]; exact List.ne_nil_of_mem he0)]
    dsimp only
    cases hf : List.find? (fun e => pyStrLe today e)
        (List.insertionSort (fun a b => pyStrLe a b = true) (normalizedExpiries payload)) with
    | some ex =>
      exact ⟨ex, rfl, (pyStrLe_iff _ _).mp (List.find?_some hf)⟩
    | none =>
      exfalso
      have hmem : e0 ∈ List.insertionSort (fun a b => pyStrLe a b = true)
          (normalizedExpiries payload) :=
        (List.perm_insertionSort _ _).mem_iff.mpr he0
      exact (List.find?_eq_none.mp hf e0 hmem) ((pyStrLe_iff _ _).mpr hte0)
  · intro today l1 l2 hperm
    have hN : (normalizedExpiries (JValue.arr l1)).Perm (normalizedExpiries (JValue.arr l2)) := by
      unfold normalizedExpiries extractExpiriesRaw
      exact (hperm.map pyStr).filter _
    have hS : List.insertionSort (fun a b => pyStrLe a b = true) (normalizedExpiries (JValue.arr l1))
        = List.insertionSort (fun a b => pyStrLe a b = true) (normalizedExpiries (JValue.arr l2)) := by
      refine List.eq_of_perm_of_sorted ?_
        (List.sorted_insertionSort _ _) (List.sorted_insertionSort _ _)
      exact (List.perm_insertionSort _ _).trans (hN.trans (List.perm_insertionSort _ _).symm)
    unfold pick_nearest_expiry
    dsimp only
    by_cases hE : (normalizedExpiries (JValue.arr l1)).isEmpty = true
    · have hE2 : (normalizedExpiries (JValue.arr l2)).isEmpty = true := by
        simp only [List.isEmpty_eq_true] at hE ⊢
        exact ((hE ▸ hN).nil_eq).symm
      rw [if_pos hE, if_pos hE2]
    · have hE2 : ¬(normalizedExpiries (JValue.arr l2)).isEmpty = true := by
        simp only [List.isEmpty_eq_true] at hE ⊢
        intro h2
        exact hE ((h2 ▸ hN).eq_nil)
      rw [if_neg hE, if_neg hE2, hS]
  · intro today payload hne hall
    unfold pick_nearest_expiry
    rw [if_neg (by simp only [List.isEmpty_eq_true]; exact hne)]
    dsimp only
    have hfn : List.find? (fun e => pyStrLe today e)
        (List.insertionSort (fun a b => pyStrLe a b = true) (normalizedExpiries payload)) = none := by
      rw [List.find?_eq_none]
      intro x hx hpx
      exact hall x ((List.perm_insertionSort _ _).subset hx) ((pyStrLe_iff _ _).mp hpx)
    rw [hfn]
    have hSne : List.insertionSort (fun a b => pyStrLe a b = true)
        (normalizedExpiries payload) ≠ [] := by
      intro h0
      have hp := List.perm_insertionSort (fun a b => pyStrLe a b = true) (normalizedExpiries payload)
      rw [h0] at hp
      exact hne hp.nil_eq.symm
    cases hgl : (List.insertionSort (fun a b => pyStrLe a b = true)
        (normalizedExpiries payload)).getLast? with
    | none => exact absurd (List.getLast?_eq_none_iff.mp hgl) hSne
    | some m =>
      refine ⟨m, rfl, ?_, ?_⟩
      · exact (List.perm_insertionSort _ _).subset (List.mem_of_getLast?_eq_some hgl)
      · intro e he
        exact sorted_le_getLast _ (List.sorted_insertionSort _ _) e
          ((List.perm_insertionSort _ _).symm.subset he) m hgl

theorem claim_C6_w :
    ∃ ex, pick_nearest_expiry "2026-10-12" wExpiryPayload = some ex ∧ "2026-10-12" ≤ ex :=
  claim_C6_nearest_expiry.1 "2026-10-12" wExpiryPayload
    ⟨"2026-12-25", by decide, (pyStrLe_iff "2026-10-12" "2026-12-25").mp (by rfl)⟩
